import Mathlib

/-!
Shallow embedding of `src/streamlit_app.py`, a Streamlit client for a
Databricks model-serving endpoint.  Python strings are modelled as
`List Char` (`PyStr`), Python/JSON values as the inductive `Json`
(Python `None` is `Json.null`), the `requests` transport as an explicit
function `HttpRequest → HttpResponse`, and each Streamlit button handler
as a pure function returning the displayed items together with the list
of HTTP requests it issued.
-/

/-- Python strings, modelled as lists of characters. -/
abbrev PyStr := List Char

/-- A JSON numeric literal.  Python's `float` non-finite values `nan`,
`inf` and `-inf` are distinguished because `json.dumps(..., allow_nan)`
and `json.loads` treat them specially; finite numbers keep their lexeme
(the claims under study never depend on numeric arithmetic). -/
inductive JNum where
  | finite (lexeme : String)
  | nan
  | inf
  | neginf
deriving Repr, DecidableEq

/-- JSON-compatible Python values: `None`, `bool`, numbers, `str`,
`list`, `dict` (insertion-ordered). -/
inductive Json where
  | null
  | bool (b : Bool)
  | num (v : JNum)
  | str (s : String)
  | arr (items : List Json)
  | obj (entries : List (String × Json))
deriving Repr

/-- Python `payload is None` (the only `Json` value that is `None`). -/
def Json.is_none : Json → Bool
  | .null => true
  | _ => false

mutual

/-- Whether a value contains a non-finite float (`nan`, `inf`, `-inf`)
anywhere; `json.dumps(..., allow_nan=False)` raises exactly on these. -/
def contains_nonfinite : Json → Bool
  | .null => false
  | .bool _ => false
  | .str _ => false
  | .num .nan => true
  | .num .inf => true
  | .num .neginf => true
  | .num (.finite _) => false
  | .arr items => contains_nonfinite_list items
  | .obj entries => contains_nonfinite_entries entries

def contains_nonfinite_list : List Json → Bool
  | [] => false
  | x :: xs => contains_nonfinite x || contains_nonfinite_list xs

def contains_nonfinite_entries : List (String × Json) → Bool
  | [] => false
  | (_, v) :: xs => contains_nonfinite v || contains_nonfinite_entries xs

end

/-- One hexadecimal digit, lowercase, as emitted by `json.dumps`. -/
def hex_digit (n : Nat) : Char :=
  if n < 10 then Char.ofNat (48 + n) else Char.ofNat (87 + n)

/-- Four-digit hexadecimal rendering of `n < 0x10000`. -/
def hex4 (n : Nat) : List Char :=
  [hex_digit (n / 4096 % 16), hex_digit (n / 256 % 16),
   hex_digit (n / 16 % 16), hex_digit (n % 16)]

/-- `json.dumps` escaping of one character (default `ensure_ascii=True`:
non-ASCII characters become `\uXXXX`, astral ones a surrogate pair). -/
def escape_char (c : Char) : List Char :=
  if c = '"' then ['\\', '"']
  else if c = '\\' then ['\\', '\\']
  else if c = '\n' then ['\\', 'n']
  else if c = '\r' then ['\\', 'r']
  else if c = '\t' then ['\\', 't']
  else if c.toNat = 8 then ['\\', 'b']
  else if c.toNat = 12 then ['\\', 'f']
  else if c.toNat < 32 || c.toNat > 126 then
    if c.toNat ≥ 65536 then
      ['\\', 'u'] ++ hex4 (55296 + (c.toNat - 65536) / 1024) ++
      ['\\', 'u'] ++ hex4 (56320 + (c.toNat - 65536) % 1024)
    else
      ['\\', 'u'] ++ hex4 c.toNat
  else [c]

/-- `json.dumps` rendering of a string, quotes included. -/
def dump_string (s : String) : String :=
  String.mk ('"' :: s.data.foldr (fun c acc => escape_char c ++ acc) ['"'])

/-- `json.dumps` rendering of a numeric value; non-finite floats are
emitted as the sentinel tokens `NaN`, `Infinity`, `-Infinity`. -/
def dump_num : JNum → String
  | .finite s => s
  | .nan => "NaN"
  | .inf => "Infinity"
  | .neginf => "-Infinity"

mutual

/-- The serialization body of `json.dumps` (default separators
`", "` and `": "`). -/
def dump_json : Json → String
  | .null => "null"
  | .bool true => "true"
  | .bool false => "false"
  | .num v => dump_num v
  | .str s => dump_string s
  | .arr items => "[" ++ dump_json_list items ++ "]"
  | .obj entries => "\x7b" ++ dump_json_entries entries ++ "\x7d"

def dump_json_list : List Json → String
  | [] => ""
  | [x] => dump_json x
  | x :: xs => dump_json x ++ ", " ++ dump_json_list xs

def dump_json_entries : List (String × Json) → String
  | [] => ""
  | [(k, v)] => dump_string k ++ ": " ++ dump_json v
  | (k, v) :: xs => dump_string k ++ ": " ++ dump_json v ++ ", " ++ dump_json_entries xs

end

/-- `json.dumps(value, allow_nan=allow_nan)`: with `allow_nan=False`
Python raises `ValueError` on the first non-finite float (modelled as
`Except.error`, hoisted to a whole-value check, which is observationally
the same); with `allow_nan=True` serialization is total. -/
def json_dumps (allow_nan : Bool) (j : Json) : Except String String :=
  if !allow_nan && contains_nonfinite j then
    Except.error "Out of range float values are not JSON compliant"
  else
    Except.ok (dump_json j)

/-- JSON whitespace (`json.loads` skips space, tab, newline, CR). -/
def json_ws (c : Char) : Bool :=
  c = ' ' || c = '\t' || c = '\n' || c = '\r'

/-- Skip leading JSON whitespace. -/
def skip_ws (s : PyStr) : PyStr := s.dropWhile json_ws

/-- ASCII decimal digit test. -/
def is_digit (c : Char) : Bool := 48 ≤ c.toNat && c.toNat ≤ 57

/-- Value of one hexadecimal digit, if any. -/
def hex_val (c : Char) : Option Nat :=
  if 48 ≤ c.toNat && c.toNat ≤ 57 then some (c.toNat - 48)
  else if 97 ≤ c.toNat && c.toNat ≤ 102 then some (c.toNat - 87)
  else if 65 ≤ c.toNat && c.toNat ≤ 70 then some (c.toNat - 55)
  else none

/-- Read the four hex digits of a `\uXXXX` escape. -/
def parse_u4 : PyStr → Option (Nat × PyStr)
  | a :: b :: c :: d :: rest =>
    match hex_val a, hex_val b, hex_val c, hex_val d with
    | some x, some y, some z, some w => some (4096 * x + 256 * y + 16 * z + w, rest)
    | _, _, _, _ => none
  | _ => none

/-- Body of a JSON string after the opening quote: returns the decoded
characters and the remainder after the closing quote.  Unescaped control
characters are rejected (`json.loads` is strict by default); a `\uXXXX`
code unit is mapped through `Char.ofNat`. -/
def parse_string_body : Nat → PyStr → Option (PyStr × PyStr)
  | 0, _ => none
  | _ + 1, [] => none
  | _ + 1, '"' :: rest => some ([], rest)
  | fuel + 1, '\\' :: rest =>
    match rest with
    | '"' :: r => (fun p => ('"' :: p.1, p.2)) <$> parse_string_body fuel r
    | '\\' :: r => (fun p => ('\\' :: p.1, p.2)) <$> parse_string_body fuel r
    | '/' :: r => (fun p => ('/' :: p.1, p.2)) <$> parse_string_body fuel r
    | 'b' :: r => (fun p => (Char.ofNat 8 :: p.1, p.2)) <$> parse_string_body fuel r
    | 'f' :: r => (fun p => (Char.ofNat 12 :: p.1, p.2)) <$> parse_string_body fuel r
    | 'n' :: r => (fun p => ('\n' :: p.1, p.2)) <$> parse_string_body fuel r
    | 'r' :: r => (fun p => ('\r' :: p.1, p.2)) <$> parse_string_body fuel r
    | 't' :: r => (fun p => ('\t' :: p.1, p.2)) <$> parse_string_body fuel r
    | 'u' :: r =>
      match parse_u4 r with
      | some (n, r2) => (fun p => (Char.ofNat n :: p.1, p.2)) <$> parse_string_body fuel r2
      | none => none
    | _ => none
  | fuel + 1, c :: rest =>
    if c.toNat < 32 then none
    else (fun p => (c :: p.1, p.2)) <$> parse_string_body fuel rest

/-- Longest run of leading digits, with the remainder. -/
def take_digits (s : PyStr) : PyStr × PyStr :=
  (s.takeWhile is_digit, s.dropWhile is_digit)

/-- JSON integer part: `0` or a nonzero digit followed by digits. -/
def parse_int_digits : PyStr → Option (PyStr × PyStr)
  | '0' :: rest => some (['0'], rest)
  | c :: rest =>
    if is_digit c then
      let (ds, r) := take_digits rest
      some (c :: ds, r)
    else none
  | [] => none

/-- Optional fractional part `.digits`. -/
def parse_frac : PyStr → Option (PyStr × PyStr)
  | '.' :: r =>
    let (ds, r2) := take_digits r
    if ds.isEmpty then none else some ('.' :: ds, r2)
  | s => some ([], s)

/-- Optional exponent part `[eE][+-]?digits`. -/
def parse_exp : PyStr → Option (PyStr × PyStr)
  | c :: r =>
    if c = 'e' || c = 'E' then
      let (sg, r1) : PyStr × PyStr :=
        match r with
        | '+' :: t => (['+'], t)
        | '-' :: t => (['-'], t)
        | _ => ([], r)
      let (ds, r2) := take_digits r1
      if ds.isEmpty then none else some (c :: (sg ++ ds), r2)
    else some ([], c :: r)
  | [] => some ([], [])

/-- A JSON number literal (sign, integer, fraction, exponent). -/
def parse_number (s : PyStr) : Option (JNum × PyStr) :=
  let (sign, s1) : PyStr × PyStr :=
    match s with
    | '-' :: r => (['-'], r)
    | _ => ([], s)
  match parse_int_digits s1 with
  | none => none
  | some (ip, s2) =>
    match parse_frac s2 with
    | none => none
    | some (fp, s3) =>
      match parse_exp s3 with
      | none => none
      | some (ep, s4) => some (.finite (String.mk (sign ++ ip ++ fp ++ ep)), s4)

/-- Strip a literal keyword, if present. -/
def strip_lit : PyStr → PyStr → Option PyStr
  | [], s => some s
  | c :: cs, d :: ds => if c = d then strip_lit cs ds else none
  | _ :: _, [] => none

mutual

/-- One JSON value at the head of the input (whitespace already
skipped), with the remainder.  `json.loads` defaults accept the
non-standard literals `NaN`, `Infinity`, `-Infinity`. -/
def parse_value : Nat → PyStr → Option (Json × PyStr)
  | 0, _ => none
  | _ + 1, [] => none
  | fuel + 1, c :: rest =>
    if c = '\x7b' then
      match skip_ws rest with
      | '\x7d' :: r2 => some (.obj [], r2)
      | r2 =>
        match parse_entries fuel r2 with
        | some (entries, r3) => some (.obj entries, r3)
        | none => none
    else if c = '[' then
      match skip_ws rest with
      | ']' :: r2 => some (.arr [], r2)
      | r2 =>
        match parse_elements fuel r2 with
        | some (items, r3) => some (.arr items, r3)
        | none => none
    else if c = '"' then
      match parse_string_body (rest.length + 1) rest with
      | some (chars, r2) => some (.str (String.mk chars), r2)
      | none => none
    else
      match strip_lit "true".data (c :: rest) with
      | some r => some (.bool true, r)
      | none =>
      match strip_lit "false".data (c :: rest) with
      | some r => some (.bool false, r)
      | none =>
      match strip_lit "null".data (c :: rest) with
      | some r => some (.null, r)
      | none =>
      match strip_lit "NaN".data (c :: rest) with
      | some r => some (.num .nan, r)
      | none =>
      match strip_lit "Infinity".data (c :: rest) with
      | some r => some (.num .inf, r)
      | none =>
      match strip_lit "-Infinity".data (c :: rest) with
      | some r => some (.num .neginf, r)
      | none =>
      match parse_number (c :: rest) with
      | some (v, r) => some (.num v, r)
      | none => none

/-- Comma-separated `"key": value` pairs followed by `}`. -/
def parse_entries : Nat → PyStr → Option (List (String × Json) × PyStr)
  | 0, _ => none
  | fuel + 1, s =>
    match s with
    | '"' :: r =>
      match parse_string_body (r.length + 1) r with
      | none => none
      | some (key, r1) =>
        match skip_ws r1 with
        | ':' :: r2 =>
          match parse_value fuel (skip_ws r2) with
          | none => none
          | some (v, r3) =>
            match skip_ws r3 with
            | ',' :: r4 =>
              match parse_entries fuel (skip_ws r4) with
              | some (rest, r5) => some ((String.mk key, v) :: rest, r5)
              | none => none
            | '\x7d' :: r4 => some ([(String.mk key, v)], r4)
            | _ => none
        | _ => none
    | _ => none

/-- Comma-separated values followed by `]`. -/
def parse_elements : Nat → PyStr → Option (List Json × PyStr)
  | 0, _ => none
  | fuel + 1, s =>
    match parse_value fuel s with
    | none => none
    | some (v, r) =>
      match skip_ws r with
      | ',' :: r2 =>
        match parse_elements fuel (skip_ws r2) with
        | some (vs, r3) => some (v :: vs, r3)
        | none => none
      | ']' :: r2 => some (v :: [], r2)
      | _ => none

end

/-- `json.loads(s)`: parse one JSON document, requiring only whitespace
after it.  Errors carry a short form of CPython's messages. -/
def json_loads (s : PyStr) : Except String Json :=
  match parse_value (s.length + 1) (skip_ws s) with
  | none => Except.error "Expecting value"
  | some (v, rest) =>
    if (skip_ws rest).isEmpty then Except.ok v else Except.error "Extra data"

/-- `_strip_trailing_slash(url)`: drop one trailing `/` if present
(`url.endswith("/")` then `url[:-1]`). -/
def strip_trailing_slash (url : PyStr) : PyStr :=
  if url.getLast? = some '/' then url.dropLast else url

/-- `build_invocations_url(host, endpoint_name)`. -/
def build_invocations_url (host : PyStr) (endpoint_name : PyStr) : PyStr :=
  strip_trailing_slash host ++ "/serving-endpoints/".data ++ endpoint_name ++ "/invocations".data

/-- Python `text.strip()` (both ends; ASCII whitespace suffices here). -/
def py_strip (s : PyStr) : PyStr :=
  ((s.dropWhile Char.isWhitespace).reverse.dropWhile Char.isWhitespace).reverse

/-- A pandas `DataFrame`, reduced to what the app uses: named columns,
an index, and row-major data. -/
structure DataFrame where
  columns : List String
  index : List Nat
  data : List (List Json)
deriving Repr

/-- `pd.DataFrame(rows)` for row-major `rows` under the given column
names: the default index is `RangeIndex(0, N)`.  Both frames the app
builds (`pd.DataFrame([{col: text}])` and `pd.read_csv(...)`) carry this
default index. -/
def pd_DataFrame (cols : List String) (rows : List (List Json)) : DataFrame :=
  ⟨cols, List.range rows.length, rows⟩

/-- A `Nat` index entry as a JSON number. -/
def nat_json (n : Nat) : Json := .num (.finite (toString n))

/-- `df.to_dict(orient="split")`: `{"index": ..., "columns": ...,
"data": ...}` with order preserved field-for-field. -/
def df_to_dict_split (df : DataFrame) : Json :=
  .obj [("index", .arr (df.index.map nat_json)),
        ("columns", .arr (df.columns.map Json.str)),
        ("data", .arr (df.data.map Json.arr))]

/-- `build_dataframe_split_payload(df)` from the source:
`{"dataframe_split": df.to_dict(orient="split")}`. -/
def build_dataframe_split_payload (df : DataFrame) : Json :=
  .obj [("dataframe_split", df_to_dict_split df)]

/-- `df[[col]]`: select one column, keeping the index; `None` when the
column is absent (pandas raises `KeyError`, caught by the handler's
`try`). -/
def df_select_col (df : DataFrame) (col : String) : Option DataFrame :=
  match df.columns.indexOf? col with
  | none => none
  | some i => some ⟨[col], df.index, df.data.map (fun row => (row.drop i).take 1)⟩

/-- `df.head(n)`. -/
def df_head (df : DataFrame) (n : Nat) : DataFrame :=
  ⟨df.columns, df.index.take n, df.data.take n⟩

/-- One HTTP POST as `call_endpoint` assembles it. -/
structure HttpRequest where
  url : PyStr
  authorization : PyStr
  content_type : String
  payload : Json
  body : String
deriving Repr

/-- What `requests.post` hands back: status code and body text. -/
structure HttpResponse where
  status_code : Nat
  text : String
deriving Repr

/-- `call_endpoint(host, token, endpoint_name, payload)`: build the URL,
attach `Authorization: Bearer {token}` and `Content-Type:
application/json`, serialize with `json.dumps(payload, allow_nan=True)`,
and POST once through the given transport.  The network and the fixed
`timeout_s=120` live inside `transport`. -/
def call_endpoint (transport : HttpRequest → HttpResponse)
    (host token endpoint_name : PyStr) (payload : Json) :
    Except String (HttpRequest × HttpResponse) :=
  let url := build_invocations_url host endpoint_name
  match json_dumps true payload with
  | .error e => .error e
  | .ok data_json =>
    let req : HttpRequest :=
      ⟨url, "Bearer ".data ++ token, "application/json", payload, data_json⟩
    .ok (req, transport req)

/-- One Streamlit display call. -/
inductive DisplayItem where
  | err (msg : String)
  | warn (msg : String)
  | success (msg : String)
  | json_view (j : Json)
  | code_view (s : String)
  | exception_view (e : String)
deriving Repr

/-- What one button press produced: the display calls in order, and the
HTTP requests issued. -/
structure Outcome where
  display : List DisplayItem
  sent_requests : List HttpRequest
deriving Repr

/-- The error text shown when host, token or endpoint name is empty. -/
def missing_fields_msg : String :=
  "Please fill **Host**, **PAT**, and **Endpoint Name** in the sidebar."

/-- The shared result branch (source lines 108-116 and twins): on 200,
`st.success` then `st.json(resp.json())`, falling back to
`st.code(resp.text)` when the body is not JSON; otherwise `st.error`
with the status and `st.code(resp.text)`. -/
def render_response (resp : HttpResponse) : List DisplayItem :=
  if resp.status_code = 200 then
    match json_loads resp.text.data with
    | .ok j => [.success "Success", .json_view j]
    | .error _ => [.success "Success", .code_view resp.text]
  else
    [.err ("Request failed: HTTP " ++ toString resp.status_code), .code_view resp.text]

/-- The Single Text tab's `if run_btn:` handler (source lines 97-118). -/
def run_btn_handler (transport : HttpRequest → HttpResponse)
    (host token endpoint_name : PyStr)
    (text_input df_col_name : String) : Outcome :=
  if host.isEmpty || token.isEmpty || endpoint_name.isEmpty then
    ⟨[.err missing_fields_msg], []⟩
  else if (py_strip text_input.data).isEmpty then
    ⟨[.warn "Please enter some text."], []⟩
  else
    let df := pd_DataFrame [df_col_name] [[Json.str text_input]]
    let payload := build_dataframe_split_payload df
    match call_endpoint transport host token endpoint_name payload with
    | .ok (req, resp) => ⟨render_response resp, [req]⟩
    | .error e => ⟨[.exception_view e], []⟩

/-- The Batch CSV tab's `if run_batch:` handler (source lines 144-167). -/
def run_batch_handler (transport : HttpRequest → HttpResponse)
    (host token endpoint_name : PyStr)
    (df_csv : Option DataFrame) (batch_col : String) (limit_rows : Nat) : Outcome :=
  if host.isEmpty || token.isEmpty || endpoint_name.isEmpty then
    ⟨[.err missing_fields_msg], []⟩
  else
    match df_csv with
    | none => ⟨[.warn "Please upload a CSV first."], []⟩
    | some df =>
      if batch_col ∉ df.columns then
        ⟨[.err ("Column '" ++ batch_col ++ "' not found in CSV.")], []⟩
      else
        match df_select_col df batch_col with
        | none => ⟨[.exception_view "KeyError"], []⟩
        | some dfc =>
          let df_send := df_head dfc limit_rows
          let payload := build_dataframe_split_payload df_send
          match call_endpoint transport host token endpoint_name payload with
          | .ok (req, resp) => ⟨render_response resp, [req]⟩
          | .error e => ⟨[.exception_view e], []⟩

/-- The Raw JSON tab's `if send_raw_btn:` handler (source lines
182-206).  `payload = json.loads(payload_text)` with `st.error` on a
parse exception (leaving `payload = None`, i.e. `Json.null`); the
request is sent only under `if payload is not None:`. -/
def send_raw_btn_handler (transport : HttpRequest → HttpResponse)
    (host token endpoint_name : PyStr) (payload_text : PyStr) : Outcome :=
  if host.isEmpty || token.isEmpty || endpoint_name.isEmpty then
    ⟨[.err missing_fields_msg], []⟩
  else
    let parsed : Json × List DisplayItem :=
      match json_loads payload_text with
      | .ok v => (v, [])
      | .error e => (Json.null, [.err ("Invalid JSON: " ++ e)])
    let payload := parsed.1
    let pre := parsed.2
    if payload.is_none then
      ⟨pre, []⟩
    else
      match call_endpoint transport host token endpoint_name payload with
      | .ok (req, resp) => ⟨pre ++ render_response resp, [req]⟩
      | .error e => ⟨pre ++ [.exception_view e], []⟩

/- Helper lemmas -/

/-- Stripping after appending one `/` recovers the original string. -/
theorem strip_trailing_slash_concat (h : PyStr) :
    strip_trailing_slash (h ++ ['/']) = h := by
  simp [strip_trailing_slash, List.getLast?_concat]

/-- Stripping is the identity on strings not ending in `/`. -/
theorem strip_trailing_slash_of_no_slash (h : PyStr) (hh : h.getLast? ≠ some '/') :
    strip_trailing_slash h = h := by
  simp [strip_trailing_slash, hh]

/-- With `allow_nan=True` (as `call_endpoint` passes it), `json_dumps`
never errors. -/
theorem json_dumps_true_eq (j : Json) :
    json_dumps true j = Except.ok (dump_json j) := by
  simp [json_dumps]

/-- C1: `build_dataframe_split_payload` wraps the split form under the
key `dataframe_split`; for a frame of `N = rows.length` rows and
`M = cols.length` columns the split form lists the `M` column names in
their original order, the index `[0, ..., N-1]`, and the `N` rows in
their original order, each of length `M`. -/
theorem C1_build_dataframe_split_payload_shape
    (cols : List String) (rows : List (List Json))
    (hrect : ∀ r ∈ rows, r.length = cols.length) :
    build_dataframe_split_payload (pd_DataFrame cols rows) =
      Json.obj [("dataframe_split", Json.obj
        [("index", Json.arr ((List.range rows.length).map nat_json)),
         ("columns", Json.arr (cols.map Json.str)),
         ("data", Json.arr (rows.map Json.arr))])] ∧
    (cols.map Json.str).length = cols.length ∧
    ((List.range rows.length).map nat_json).length = rows.length ∧
    (rows.map Json.arr).length = rows.length ∧
    (∀ x ∈ rows.map Json.arr, ∃ r, x = Json.arr r ∧ r.length = cols.length) := by
  refine ⟨rfl, by simp, by simp, by simp, ?_⟩
  intro x hx
  rw [List.mem_map] at hx
  obtain ⟨r, hr, rfl⟩ := hx
  exact ⟨r, rfl, hrect r hr⟩

/-- Witness for C1 on a concrete 2-row, 2-column frame. -/
theorem C1_build_dataframe_split_payload_shape_witness :
    build_dataframe_split_payload
        (pd_DataFrame ["a", "b"] [[Json.str "x", Json.str "y"],
                                  [Json.num (JNum.finite "1"), Json.bool true]]) =
      Json.obj [("dataframe_split", Json.obj
        [("index", Json.arr ((List.range 2).map nat_json)),
         ("columns", Json.arr (["a", "b"].map Json.str)),
         ("data", Json.arr ([[Json.str "x", Json.str "y"],
                             [Json.num (JNum.finite "1"), Json.bool true]].map Json.arr))])] :=
  (C1_build_dataframe_split_payload_shape ["a", "b"]
    [[Json.str "x", Json.str "y"], [Json.num (JNum.finite "1"), Json.bool true]]
    (by decide)).1

/-- C2: `build_invocations_url` is invariant under one trailing slash on
the host, and for a host with no trailing slash it is exactly
`host ++ "/serving-endpoints/" ++ endpoint ++ "/invocations"`. -/
theorem C2_build_invocations_url_trailing_slash
    (h e : PyStr) (hh : h.getLast? ≠ some '/') :
    build_invocations_url (h ++ ['/']) e = build_invocations_url h e ∧
    build_invocations_url h e =
      h ++ "/serving-endpoints/".data ++ e ++ "/invocations".data := by
  constructor
  · simp [build_invocations_url, strip_trailing_slash_concat,
      strip_trailing_slash_of_no_slash h hh]
  · simp [build_invocations_url, strip_trailing_slash_of_no_slash h hh]

/-- Witness for C2 at the spec's concrete example host and endpoint. -/
theorem C2_build_invocations_url_trailing_slash_witness :
    ("https://h.example".data.getLast? ≠ some '/') ∧
    (build_invocations_url ("https://h.example".data ++ ['/']) "e".data =
        build_invocations_url "https://h.example".data "e".data ∧
      build_invocations_url "https://h.example".data "e".data =
        "https://h.example".data ++ "/serving-endpoints/".data ++ "e".data ++
          "/invocations".data) :=
  ⟨by decide,
   C2_build_invocations_url_trailing_slash "https://h.example".data "e".data (by decide)⟩

/-- C9: `_strip_trailing_slash` removes at most one slash, so a host
ending in two slashes keeps a doubled slash right before the
`serving-endpoints` segment. -/
theorem C9_double_trailing_slash_preserved (h e : PyStr) :
    build_invocations_url (h ++ ['/', '/']) e =
      h ++ ['/'] ++ "/serving-endpoints/".data ++ e ++ "/invocations".data ∧
    build_invocations_url "https://h.example//".data "e".data =
      "https://h.example//serving-endpoints/e/invocations".data := by
  constructor
  · have hstrip : strip_trailing_slash (h ++ ['/', '/']) = h ++ ['/'] := by
      rw [show h ++ ['/', '/'] = (h ++ ['/']) ++ ['/'] by simp,
        strip_trailing_slash_concat]
    simp only [build_invocations_url, hstrip]
  · decide

/-- A non-empty list is not `isEmpty`. -/
theorem isEmpty_false_of_ne_nil {l : PyStr} (h : l ≠ []) : l.isEmpty = false := by
  cases l with
  | nil => exact absurd rfl h
  | cons a t => rfl

/-- C3: the result branch declares success exactly when the status code
is 200, and every other status code is rendered uniformly as an error
banner followed by the raw (unparsed) response body. -/
theorem C3_success_iff_status_200 (resp : HttpResponse) :
    ((DisplayItem.success "Success") ∈ render_response resp ↔ resp.status_code = 200) ∧
    (resp.status_code ≠ 200 →
      render_response resp =
        [.err ("Request failed: HTTP " ++ toString resp.status_code),
         .code_view resp.text]) := by
  by_cases hs : resp.status_code = 200
  · refine ⟨⟨fun _ => hs, fun _ => ?_⟩, fun hne => absurd hs hne⟩
    simp only [render_response, if_pos hs]
    cases json_loads resp.text.data <;> simp
  · refine ⟨⟨fun hmem => ?_, fun h200 => absurd h200 hs⟩,
      fun _ => by simp [render_response, hs]⟩
    simp [render_response, hs] at hmem

/-- Witness for C3 at the spec's stub response `500 / "internal error"`. -/
theorem C3_success_iff_status_200_witness :
    ((DisplayItem.success "Success") ∈ render_response ⟨500, "internal error"⟩ ↔
      (500 : Nat) = 200) ∧
    ((500 : Nat) ≠ 200 →
      render_response ⟨500, "internal error"⟩ =
        [.err ("Request failed: HTTP " ++ toString (500 : Nat)),
         .code_view "internal error"]) :=
  C3_success_iff_status_200 ⟨500, "internal error"⟩

/-- C5: with `allow_nan=True`, exactly as `call_endpoint` passes it, the
serialization step is total even on payloads containing non-finite
floats, the sentinel tokens are emitted, and `call_endpoint` issues the
request with those values passed through into the body. -/
theorem C5_nonfinite_serialization_total (payload : Json)
    (hnf : contains_nonfinite payload = true) :
    (∃ s, json_dumps true payload = Except.ok s) ∧
    (∀ (transport : HttpRequest → HttpResponse) (host token endpoint_name : PyStr),
      call_endpoint transport host token endpoint_name payload =
        Except.ok
          (⟨build_invocations_url host endpoint_name, "Bearer ".data ++ token,
            "application/json", payload, dump_json payload⟩,
           transport
             ⟨build_invocations_url host endpoint_name, "Bearer ".data ++ token,
              "application/json", payload, dump_json payload⟩)) ∧
    json_dumps true (Json.num JNum.nan) = Except.ok "NaN" ∧
    json_dumps true (Json.num JNum.inf) = Except.ok "Infinity" ∧
    json_dumps true (Json.num JNum.neginf) = Except.ok "-Infinity" := by
  refine ⟨⟨dump_json payload, json_dumps_true_eq payload⟩, ?_, rfl, rfl, rfl⟩
  intro transport host token endpoint_name
  simp [call_endpoint, json_dumps_true_eq]

/-- Witness for C5 at the payload `nan`. -/
theorem C5_nonfinite_serialization_total_witness :
    ∃ s, json_dumps true (Json.num JNum.nan) = Except.ok s :=
  (C5_nonfinite_serialization_total (Json.num JNum.nan) rfl).1

/-- C6: on a 200 response the body is handed back parsed when it is
valid JSON and otherwise displayed as raw text instead of failing. -/
theorem C6_status_200_body_handling (body : String) :
    (∀ e, json_loads body.data = Except.error e →
      render_response ⟨200, body⟩ = [.success "Success", .code_view body]) ∧
    (∀ j, json_loads body.data = Except.ok j →
      render_response ⟨200, body⟩ = [.success "Success", .json_view j]) := by
  constructor <;> intro x hx <;> simp [render_response, hx]

/-- Witness for C6 on a non-JSON body and on a JSON body. -/
theorem C6_status_200_body_handling_witness :
    render_response ⟨200, "nope"⟩ = [.success "Success", .code_view "nope"] ∧
    render_response ⟨200, "[1]"⟩ =
      [.success "Success", .json_view (Json.arr [Json.num (JNum.finite "1")])] :=
  ⟨(C6_status_200_body_handling "nope").1 "Expecting value" rfl,
   (C6_status_200_body_handling "[1]").2 (Json.arr [Json.num (JNum.finite "1")]) rfl⟩

/-- C4: in raw-JSON mode, a parse failure is reported and no request is
issued, while a successfully parsed non-null value is forwarded
unchanged as the payload of the single request issued. -/
theorem C4_raw_json_parse_gate (transport : HttpRequest → HttpResponse)
    (host token endpoint_name payload_text : PyStr)
    (hh : host ≠ []) (ht : token ≠ []) (he : endpoint_name ≠ []) :
    (∀ msg, json_loads payload_text = Except.error msg →
      send_raw_btn_handler transport host token endpoint_name payload_text =
        ⟨[.err ("Invalid JSON: " ++ msg)], []⟩) ∧
    (∀ v, json_loads payload_text = Except.ok v → v ≠ Json.null →
      (send_raw_btn_handler transport host token endpoint_name payload_text).sent_requests.map
          HttpRequest.payload = [v]) := by
  constructor
  · intro msg hmsg
    simp [send_raw_btn_handler, isEmpty_false_of_ne_nil hh, isEmpty_false_of_ne_nil ht,
      isEmpty_false_of_ne_nil he, hmsg, Json.is_none]
  · intro v hv hvn
    have hnone : v.is_none = false := by
      cases v <;> first | exact absurd rfl hvn | rfl
    simp [send_raw_btn_handler, isEmpty_false_of_ne_nil hh, isEmpty_false_of_ne_nil ht,
      isEmpty_false_of_ne_nil he, hv, hnone, call_endpoint, json_dumps_true_eq]

/-- Witness for C4 on the spec's malformed text and on a parsed array. -/
theorem C4_raw_json_parse_gate_witness :
    send_raw_btn_handler (fun _ => ⟨200, "ok"⟩) "h".data "t".data "e".data "\x7bbad".data =
      ⟨[.err ("Invalid JSON: " ++ "Expecting value")], []⟩ ∧
    (send_raw_btn_handler (fun _ => ⟨200, "ok"⟩) "h".data "t".data "e".data
        "[1]".data).sent_requests.map HttpRequest.payload =
      [Json.arr [Json.num (JNum.finite "1")]] :=
  ⟨(C4_raw_json_parse_gate (fun _ => ⟨200, "ok"⟩) "h".data "t".data "e".data "\x7bbad".data
      (by decide) (by decide) (by decide)).1 "Expecting value" rfl,
   (C4_raw_json_parse_gate (fun _ => ⟨200, "ok"⟩) "h".data "t".data "e".data "[1]".data
      (by decide) (by decide) (by decide)).2 (Json.arr [Json.num (JNum.finite "1")]) rfl
      (by simp)⟩

/-- C7: with host, token or endpoint name empty each of the three
handlers surfaces the missing-field error and issues no request; in
single-text mode a blank text issues no request either and, when the
credentials are present, surfaces the missing-text message. -/
theorem C7_missing_fields_no_request (transport : HttpRequest → HttpResponse)
    (host token endpoint_name : PyStr) (df_csv : Option DataFrame)
    (batch_col : String) (limit_rows : Nat)
    (text_input df_col_name : String) (payload_text : PyStr)
    (hmiss : host = [] ∨ token = [] ∨ endpoint_name = []) :
    run_btn_handler transport host token endpoint_name text_input df_col_name =
      ⟨[.err missing_fields_msg], []⟩ ∧
    run_batch_handler transport host token endpoint_name df_csv batch_col limit_rows =
      ⟨[.err missing_fields_msg], []⟩ ∧
    send_raw_btn_handler transport host token endpoint_name payload_text =
      ⟨[.err missing_fields_msg], []⟩ ∧
    (∀ (host2 token2 ep2 : PyStr) (text2 : String),
      (py_strip text2.data).isEmpty = true →
      (run_btn_handler transport host2 token2 ep2 text2 df_col_name).sent_requests = [] ∧
      (host2 ≠ [] → token2 ≠ [] → ep2 ≠ [] →
        run_btn_handler transport host2 token2 ep2 text2 df_col_name =
          ⟨[.warn "Please enter some text."], []⟩)) := by
  have hcond : (host.isEmpty || token.isEmpty || endpoint_name.isEmpty) = true := by
    rcases hmiss with h | h | h <;> simp [h]
  refine ⟨by simp [run_btn_handler, hcond], by simp [run_batch_handler, hcond],
    by simp [send_raw_btn_handler, hcond], ?_⟩
  intro host2 token2 ep2 text2 hstrip
  by_cases hc : (host2.isEmpty || token2.isEmpty || ep2.isEmpty) = true
  · refine ⟨by simp [run_btn_handler, hc], ?_⟩
    intro hh ht he
    simp [isEmpty_false_of_ne_nil hh, isEmpty_false_of_ne_nil ht,
      isEmpty_false_of_ne_nil he] at hc
  · have hc' : (host2.isEmpty || token2.isEmpty || ep2.isEmpty) = false :=
      Bool.eq_false_iff.mpr hc
    exact ⟨by simp [run_btn_handler, hc', hstrip], fun _ _ _ => by
      simp [run_btn_handler, hc', hstrip]⟩

/-- Witness for C7 with an empty host. -/
theorem C7_missing_fields_no_request_witness :
    run_btn_handler (fun _ => ⟨200, "ok"⟩) [] "t".data "e".data "hello" "text" =
      ⟨[.err missing_fields_msg], []⟩ :=
  (C7_missing_fields_no_request (fun _ => ⟨200, "ok"⟩) [] "t".data "e".data none
    "text" 32 "hello" "text" "null".data (Or.inl rfl)).1

/-- C8: a tabular request whose column name is absent from the CSV's
columns surfaces the column error before any payload is built and
issues no request. -/
theorem C8_missing_column_no_request (transport : HttpRequest → HttpResponse)
    (host token endpoint_name : PyStr) (df : DataFrame)
    (batch_col : String) (limit_rows : Nat)
    (hh : host ≠ []) (ht : token ≠ []) (he : endpoint_name ≠ [])
    (hcol : batch_col ∉ df.columns) :
    run_batch_handler transport host token endpoint_name (some df) batch_col limit_rows =
      ⟨[.err ("Column '" ++ batch_col ++ "' not found in CSV.")], []⟩ := by
  simp [run_batch_handler, isEmpty_false_of_ne_nil hh, isEmpty_false_of_ne_nil ht,
    isEmpty_false_of_ne_nil he, hcol]

/-- Witness for C8 on a one-column frame missing the column `label`. -/
theorem C8_missing_column_no_request_witness :
    run_batch_handler (fun _ => ⟨200, "ok"⟩) "h".data "t".data "e".data
        (some ⟨["text"], [0], [[Json.str "hi"]]⟩) "label" 32 =
      ⟨[.err ("Column '" ++ "label" ++ "' not found in CSV.")], []⟩ :=
  C8_missing_column_no_request (fun _ => ⟨200, "ok"⟩) "h".data "t".data "e".data
    ⟨["text"], [0], [[Json.str "hi"]]⟩ "label" 32
    (by decide) (by decide) (by decide) (by decide)

/-- C10: the raw-JSON text `null` parses successfully to `None`, so the
handler reports no parse error yet issues no request: the
`payload is not None` guard silently swallows a legitimate null
payload. -/
theorem C10_raw_null_silent_noop (transport : HttpRequest → HttpResponse)
    (host token endpoint_name : PyStr)
    (hh : host ≠ []) (ht : token ≠ []) (he : endpoint_name ≠ []) :
    json_loads "null".data = Except.ok Json.null ∧
    send_raw_btn_handler transport host token endpoint_name "null".data = ⟨[], []⟩ := by
  refine ⟨rfl, ?_⟩
  have hl : json_loads "null".data = Except.ok Json.null := rfl
  simp [send_raw_btn_handler, isEmpty_false_of_ne_nil hh, isEmpty_false_of_ne_nil ht,
    isEmpty_false_of_ne_nil he, hl, Json.is_none]

/-- Witness for C10 at concrete credentials and transport. -/
theorem C10_raw_null_silent_noop_witness :
    json_loads "null".data = Except.ok Json.null ∧
    send_raw_btn_handler (fun _ => ⟨200, "ok"⟩) "h".data "t".data "e".data "null".data =
      ⟨[], []⟩ :=
  C10_raw_null_silent_noop (fun _ => ⟨200, "ok"⟩) "h".data "t".data "e".data
    (by decide) (by decide) (by decide)
